import Mathlib

/-!
Shallow embedding of the audio packaging and playback logic of the Pikaza
repository (src/components/LoginPage.tsx, src/components/CharacterInputForm.tsx,
src/unnamed/part_004), together with proofs of the specification claims.

Bytes are modelled as natural numbers; every store into a `Uint8Array` slot
applies the JavaScript `ToUint8` conversion (reduction mod 256), and the
`DataView.setUint16/setUint32` stores apply `ToUint16`/`ToUint32`
(reduction mod 2^16 / 2^32) before emitting little-endian bytes, exactly as
the DataView primitives do.  Sample amplitudes and times are modelled as
exact rationals: every floating-point operation the source performs on them
(division of a 16-bit integer by 32768, subtraction of context timestamps,
`%` of non-negative finite doubles) is exact or is treated as exact real
arithmetic.
-/

namespace Pikaza

/-! ### PCM-to-sample-buffer decoder (`decodeAudioData` in LoginPage.tsx) -/

/-- Reading one element of an `Int16Array` that views two stored bytes
(little-endian platform): the 16-bit pattern `b0 + 256*b1` interpreted as a
two's-complement signed integer.  The `% 256` is the `ToUint8` conversion a
`Uint8Array` applies when the byte is stored. -/
def int16LE (b0 b1 : Nat) : Int :=
  let v : Nat := (b0 % 256) + 256 * (b1 % 256)
  if v < 32768 then (v : Int) else (v : Int) - 65536

/-- The sequence of `Int16Array` elements viewing a (necessarily even-length)
byte buffer. -/
def bytesToInt16 : List Nat → List Int
  | b0 :: b1 :: rest => int16LE b0 b1 :: bytesToInt16 rest
  | _ => []

/-- Model of a Web-Audio `AudioBuffer` as produced by `ctx.createBuffer`:
`duration` is derived as `frameCount / sampleRate` per the Web Audio
specification. -/
structure AudioBuffer where
  numChannels : Nat
  frameCount : Nat
  sampleRate : Nat
  channelData : List (List ℚ)
  deriving Repr, DecidableEq

/-- The `duration` attribute of an `AudioBuffer`: `length / sampleRate`
per the Web Audio specification. -/
def AudioBuffer.duration (b : AudioBuffer) : ℚ := (b.frameCount : ℚ) / (b.sampleRate : ℚ)

/-- Embedding of `decodeAudioData(data, ctx, sampleRate, numChannels)` from
LoginPage.tsx lines 161-178 (identical copy in CharacterInputForm.tsx).

`new Int16Array(data.buffer)` throws a `RangeError` when the byte length is
odd, hence the `Except`.  `frameCount = dataInt16.length / numChannels` is a
JavaScript float division; `ctx.createBuffer` converts the length through
`ToUint32`, truncating a fractional frame count, and throws a
`NotSupportedError` when the truncated length is zero (empty input, or
fewer samples than channels; a zero channel count also lands here, the
division yielding no full frame).  Channel counts above the implementation
maximum (guaranteed to be at least 32) would also raise, but no claim
reaches them and they are not modelled.  The loop's writes past
the truncated length land out of bounds of the `Float32Array` and are
discarded, so the visible channel data holds `⌊samples / numChannels⌋`
frames, each sample normalised by division by 32768.0 (exact for 16-bit
integers). -/
def decodeAudioData (data : List Nat) (sampleRate numChannels : Nat) :
    Except String AudioBuffer :=
  if data.length % 2 ≠ 0 then
    .error "RangeError: byte length of Int16Array should be a multiple of 2"
  else
    let dataInt16 := bytesToInt16 data
    let frameCount := dataInt16.length / numChannels
    if frameCount = 0 then
      .error "NotSupportedError: AudioContext.createBuffer: zero frame count"
    else
      .ok { numChannels := numChannels
            frameCount := frameCount
            sampleRate := sampleRate
            channelData := (List.range numChannels).map fun channel =>
              (List.range frameCount).map fun i =>
                ((dataInt16.getD (i * numChannels + channel) 0 : Int) : ℚ) / 32768 }

theorem bytesToInt16_length : ∀ (l : List Nat), (bytesToInt16 l).length = l.length / 2
  | [] => by simp [bytesToInt16]
  | [_] => by simp [bytesToInt16]
  | _ :: _ :: rest => by
      simp only [bytesToInt16, List.length_cons, bytesToInt16_length rest]
      omega

theorem int16LE_lower (b0 b1 : Nat) : -32768 ≤ int16LE b0 b1 := by
  have h0 : b0 % 256 < 256 := Nat.mod_lt _ (by omega)
  have h1 : b1 % 256 < 256 := Nat.mod_lt _ (by omega)
  simp only [int16LE]
  split <;> omega

theorem int16LE_upper (b0 b1 : Nat) : int16LE b0 b1 ≤ 32767 := by
  have h0 : b0 % 256 < 256 := Nat.mod_lt _ (by omega)
  have h1 : b1 % 256 < 256 := Nat.mod_lt _ (by omega)
  simp only [int16LE]
  split <;> omega

theorem int16LE_zero : int16LE 0 0 = 0 := by decide

theorem bytesToInt16_replicate_zero (n : Nat) :
    bytesToInt16 (List.replicate (2 * n) 0) = List.replicate n 0 := by
  induction n with
  | zero => rfl
  | succ k ih =>
      have h2 : 2 * (k + 1) = (2 * k) + 1 + 1 := by omega
      rw [h2, List.replicate_succ, List.replicate_succ]
      show bytesToInt16 (0 :: 0 :: List.replicate (2 * k) 0) = _
      rw [show bytesToInt16 (0 :: 0 :: List.replicate (2 * k) 0)
            = int16LE 0 0 :: bytesToInt16 (List.replicate (2 * k) 0) from rfl,
        ih, int16LE_zero, List.replicate_succ]

theorem range_map_getD {α β : Type} (l : List α) (d : α) (f : α → β) :
    (List.range (l.length / 1)).map (fun i => f (l.getD (i * 1 + 0) d)) = l.map f := by
  apply List.ext_getElem
  · simp
  · intro i h1 h2
    simp only [List.getElem_map, List.getElem_range, mul_one, add_zero]
    have hi : i < l.length := by simpa using h2
    rw [List.getD_eq_getElem l d hi]

theorem bytesToInt16_mem_bounds :
    ∀ (l : List Nat), ∀ s ∈ bytesToInt16 l, -32768 ≤ s ∧ s ≤ 32767
  | [] => by simp [bytesToInt16]
  | [_] => by simp [bytesToInt16]
  | b0 :: b1 :: rest => by
      intro s hs
      simp only [bytesToInt16, List.mem_cons] at hs
      rcases hs with rfl | hs
      · exact ⟨int16LE_lower _ _, int16LE_upper _ _⟩
      · exact bytesToInt16_mem_bounds rest s hs

theorem decodeAudioData_eq_ok (B : List Nat) (sr nc : Nat) (h : B.length % 2 = 0)
    (hfc : (bytesToInt16 B).length / nc ≠ 0) :
    decodeAudioData B sr nc = .ok
      { numChannels := nc
        frameCount := (bytesToInt16 B).length / nc
        sampleRate := sr
        channelData := (List.range nc).map fun channel =>
          (List.range ((bytesToInt16 B).length / nc)).map fun i =>
            (((bytesToInt16 B).getD (i * nc + channel) 0 : Int) : ℚ) / 32768 } := by
  simp [decodeAudioData, h, hfc]

/-- C2 counterexample: the empty buffer is even-length, yet with channel
count 1 the decoder does not produce `len/2 = 0` samples — it fails,
because `ctx.createBuffer` raises a `NotSupportedError` on a zero frame
count. -/
theorem decodeAudioData_empty_fails :
    ([] : List Nat).length % 2 = 0 ∧
    (∃ msg, decodeAudioData [] 24000 1 = .error msg) ∧
    ∀ buf, decodeAudioData [] 24000 1 ≠ .ok buf := by
  refine ⟨rfl, ⟨_, rfl⟩, ?_⟩
  intro buf h
  rw [show decodeAudioData [] 24000 1
      = .error "NotSupportedError: AudioContext.createBuffer: zero frame count"
    from rfl] at h
  exact Except.noConfusion h

/-- C2 amended: for every nonempty even-length byte buffer `B` and channel
count 1, `decodeAudioData` succeeds and produces exactly `B.length / 2`
samples, the `i`-th sample being the `i`-th little-endian signed 16-bit
integer of `B` divided by 32768, every sample having absolute value at
most 1, and the buffer's duration being `frameCount / sampleRate`; the
empty buffer instead fails with a `NotSupportedError` (zero frame count in
`ctx.createBuffer`).  In particular 96000 zero bytes at 24000 Hz mono
decode to 48000 zero samples of duration 2 seconds. -/
theorem decodeAudioData_mono_correct :
    (∀ (B : List Nat) (sr : Nat), 0 < sr → B.length % 2 = 0 → B ≠ [] →
      ∃ buf, decodeAudioData B sr 1 = .ok buf ∧
        buf.frameCount = B.length / 2 ∧
        buf.channelData = [(bytesToInt16 B).map (fun s : Int => ((s : ℚ) / 32768))] ∧
        (∀ ch ∈ buf.channelData, ∀ q ∈ ch, |q| ≤ 1) ∧
        buf.duration = ((buf.frameCount : ℚ) / (sr : ℚ))) ∧
    (∀ sr : Nat, decodeAudioData [] sr 1
      = .error "NotSupportedError: AudioContext.createBuffer: zero frame count") ∧
    (∃ buf, decodeAudioData (List.replicate 96000 0) 24000 1 = .ok buf ∧
      buf.frameCount = 48000 ∧
      buf.channelData = [List.replicate 48000 (0 : ℚ)] ∧
      buf.duration = 2) := by
  have hbound : ∀ (B : List Nat),
      ∀ q ∈ (bytesToInt16 B).map (fun s : Int => ((s : ℚ) / 32768)), |q| ≤ 1 := by
    intro B q hq
    simp only [List.mem_map] at hq
    obtain ⟨s, hs, rfl⟩ := hq
    obtain ⟨hl, hu⟩ := bytesToInt16_mem_bounds B s hs
    rw [abs_le]
    constructor
    · rw [le_div_iff₀ (by norm_num : (0:ℚ) < 32768)]
      have : (-32768 : ℚ) ≤ (s : ℚ) := by exact_mod_cast hl
      linarith
    · rw [div_le_one (by norm_num : (0:ℚ) < 32768)]
      have : (s : ℚ) ≤ 32767 := by exact_mod_cast hu
      linarith
  have hgen : ∀ (B : List Nat) (sr : Nat), 0 < sr → B.length % 2 = 0 → B ≠ [] →
      ∃ buf, decodeAudioData B sr 1 = .ok buf ∧
        buf.frameCount = B.length / 2 ∧
        buf.channelData = [(bytesToInt16 B).map (fun s : Int => ((s : ℚ) / 32768))] ∧
        (∀ ch ∈ buf.channelData, ∀ q ∈ ch, |q| ≤ 1) ∧
        buf.duration = ((buf.frameCount : ℚ) / (sr : ℚ)) := by
    intro B sr _ heven hne
    have hlen : B.length ≠ 0 := fun hh => hne (List.eq_nil_of_length_eq_zero hh)
    have hfc : (bytesToInt16 B).length / 1 ≠ 0 := by
      rw [bytesToInt16_length, Nat.div_one]
      omega
    refine ⟨_, decodeAudioData_eq_ok B sr 1 heven hfc, ?_, ?_, ?_, ?_⟩
    · simp [bytesToInt16_length]
    · rw [show List.range 1 = [0] from rfl]
      simp only [List.map_cons, List.map_nil]
      rw [range_map_getD (bytesToInt16 B) 0 (fun s : Int => ((s : ℚ) / 32768))]
    · intro ch hch q hq
      rw [show List.range 1 = [0] from rfl] at hch
      simp only [List.map_cons, List.map_nil, List.mem_singleton] at hch
      subst hch
      rw [range_map_getD (bytesToInt16 B) 0 (fun s : Int => ((s : ℚ) / 32768))] at hq
      exact hbound B q hq
    · rfl
  refine ⟨hgen, fun sr => rfl, ?_⟩
  obtain ⟨buf, hbuf, hfc, hcd, _, hdur⟩ :=
    hgen (List.replicate 96000 0) 24000 (by norm_num)
      (by rw [List.length_replicate])
      (by
        intro hh
        have h96 := congrArg List.length hh
        rw [List.length_replicate] at h96
        simp at h96)
  have hfc2 : buf.frameCount = 48000 := by
    rw [hfc, List.length_replicate]
  refine ⟨buf, hbuf, hfc2, ?_, ?_⟩
  · rw [hcd,
      show (List.replicate 96000 (0:Nat)) = List.replicate (2 * 48000) 0 from rfl,
      bytesToInt16_replicate_zero]
    simp only [List.map_replicate]
    have h0 : (((0:Int) : ℚ)) / 32768 = 0 := by norm_num
    rw [h0]
  · rw [hdur, hfc2]
    norm_num

/-- C4 counterexample: on the odd-length buffer `[0]` the decoder does not
succeed — `new Int16Array(data.buffer)` raises a `RangeError`. -/
theorem decodeAudioData_odd_fails :
    (∃ msg, decodeAudioData [0] 24000 1 = .error msg) ∧
    ∀ buf, decodeAudioData [0] 24000 1 ≠ .ok buf := by
  refine ⟨⟨_, rfl⟩, ?_⟩
  intro buf h
  rw [show decodeAudioData [0] 24000 1
      = .error "RangeError: byte length of Int16Array should be a multiple of 2"
    from rfl] at h
  exact Except.noConfusion h

/-- C4 amended: for every byte buffer of even length whose sample count
`B.length / 2` is at least the channel count `nc ≥ 1`, the decoder
succeeds and the frame count is the integer-division truncation of the
sample count by the channel count, dropping any trailing partial frame;
when the truncated frame count is zero (fewer samples than channels) the
decoder fails with a `NotSupportedError` from `ctx.createBuffer`; and for
every byte buffer of odd length the decoder fails with a `RangeError`
rather than succeeding. -/
theorem decodeAudioData_truncates_partial_frame :
    (∀ (B : List Nat) (sr nc : Nat), B.length % 2 = 0 → 1 ≤ nc →
      nc ≤ B.length / 2 →
      ∃ buf, decodeAudioData B sr nc = .ok buf ∧
        buf.frameCount = (B.length / 2) / nc) ∧
    (∀ (B : List Nat) (sr nc : Nat), B.length % 2 = 0 → B.length / 2 < nc →
      decodeAudioData B sr nc =
        .error "NotSupportedError: AudioContext.createBuffer: zero frame count") ∧
    (∀ (B : List Nat) (sr nc : Nat), B.length % 2 = 1 →
      decodeAudioData B sr nc =
        .error "RangeError: byte length of Int16Array should be a multiple of 2") := by
  refine ⟨?_, ?_, ?_⟩
  · intro B sr nc heven h1 h2
    have hfc : (bytesToInt16 B).length / nc ≠ 0 := by
      rw [bytesToInt16_length]
      have hge := (Nat.one_le_div_iff (by omega : 0 < nc)).mpr h2
      omega
    exact ⟨_, decodeAudioData_eq_ok B sr nc heven hfc, by simp [bytesToInt16_length]⟩
  · intro B sr nc heven hlt
    have hfc : (bytesToInt16 B).length / nc = 0 := by
      rw [bytesToInt16_length]
      exact Nat.div_eq_of_lt hlt
    simp [decodeAudioData, heven, hfc]
  · intro B sr nc hodd
    simp [decodeAudioData, hodd]

/-- Witness for C2: the general part of `decodeAudioData_mono_correct`
evaluated on the concrete nonempty two-byte buffer `[0, 128]` at 24000 Hz,
and its empty-buffer part at 24000 Hz. -/
theorem decodeAudioData_mono_correct_witness :
    (0 < 24000 ∧ ([0, 128] : List Nat).length % 2 = 0 ∧
      ([0, 128] : List Nat) ≠ [] ∧
      (∃ buf, decodeAudioData [0, 128] 24000 1 = .ok buf ∧
        buf.frameCount = ([0, 128] : List Nat).length / 2 ∧
        buf.channelData = [(bytesToInt16 [0, 128]).map (fun s : Int => ((s : ℚ) / 32768))] ∧
        (∀ ch ∈ buf.channelData, ∀ q ∈ ch, |q| ≤ 1) ∧
        buf.duration = ((buf.frameCount : ℚ) / ((24000 : Nat) : ℚ)))) ∧
    decodeAudioData [] 24000 1
      = .error "NotSupportedError: AudioContext.createBuffer: zero frame count" :=
  ⟨⟨by decide, by decide, by decide,
    decodeAudioData_mono_correct.1 [0, 128] 24000 (by decide) (by decide) (by decide)⟩,
   decodeAudioData_mono_correct.2.1 24000⟩

/-- Witness for C4: `decodeAudioData_truncates_partial_frame` evaluated on
the six-byte two-channel buffer `[1, 2, 3, 4, 5, 6]` (three samples, one
full frame, trailing partial frame dropped), on the two-byte three-channel
buffer `[1, 2]` (fewer samples than channels, `NotSupportedError`), and on
the odd-length buffer `[5]` (`RangeError`). -/
theorem decodeAudioData_truncates_partial_frame_witness :
    (([1, 2, 3, 4, 5, 6] : List Nat).length % 2 = 0 ∧ 1 ≤ 2 ∧
      2 ≤ ([1, 2, 3, 4, 5, 6] : List Nat).length / 2 ∧
      (∃ buf, decodeAudioData [1, 2, 3, 4, 5, 6] 24000 2 = .ok buf ∧
        buf.frameCount = (([1, 2, 3, 4, 5, 6] : List Nat).length / 2) / 2)) ∧
    (([1, 2] : List Nat).length % 2 = 0 ∧ ([1, 2] : List Nat).length / 2 < 3 ∧
      decodeAudioData [1, 2] 24000 3 =
        .error "NotSupportedError: AudioContext.createBuffer: zero frame count") ∧
    (([5] : List Nat).length % 2 = 1 ∧
      decodeAudioData [5] 24000 2 =
        .error "RangeError: byte length of Int16Array should be a multiple of 2") :=
  ⟨⟨by decide, by decide, by decide,
     decodeAudioData_truncates_partial_frame.1 [1, 2, 3, 4, 5, 6] 24000 2
       (by decide) (by decide) (by decide)⟩,
   ⟨by decide, by decide,
     decodeAudioData_truncates_partial_frame.2.1 [1, 2] 24000 3 (by decide) (by decide)⟩,
   ⟨by decide,
     decodeAudioData_truncates_partial_frame.2.2 [5] 24000 2 (by decide)⟩⟩


/-! ### WAV container writer (`createWavFile` in LoginPage.tsx lines 186-214,
identical copy in CharacterInputForm.tsx) -/

/-- Store of one byte into a `DataView` slot (`setUint8`; `ToUint8` is
reduction mod 256). -/
def setUint8 (view : List Nat) (off v : Nat) : List Nat :=
  view.set off (v % 256)

/-- Little-endian `DataView.setUint16(off, v, true)`: `ToUint16` the value,
then store the two bytes low-first. -/
def setUint16 (view : List Nat) (off v : Nat) : List Nat :=
  let w := v % 2 ^ 16
  setUint8 (setUint8 view off w) (off + 1) (w / 2 ^ 8)

/-- Little-endian `DataView.setUint32(off, v, true)`: `ToUint32` the value,
then store the four bytes low-first. -/
def setUint32 (view : List Nat) (off v : Nat) : List Nat :=
  let w := v % 2 ^ 32
  setUint8 (setUint8 (setUint8 (setUint8 view off w)
    (off + 1) (w / 2 ^ 8)) (off + 2) (w / 2 ^ 16)) (off + 3) (w / 2 ^ 24)

/-- Embedding of `writeString(view, offset, string)` from LoginPage.tsx
lines 180-184: stores the character codes (`charCodeAt`) of the string at
consecutive offsets.  The string is represented by its list of character
codes. -/
def writeString (view : List Nat) (off : Nat) : List Nat → List Nat
  | [] => view
  | c :: rest => writeString (setUint8 view off c) (off + 1) rest

/-- Embedding of `createWavFile(pcmData, sampleRate, numChannels,
bitsPerSample)` from LoginPage.tsx lines 186-214: allocates a zeroed
`ArrayBuffer` of 44 + dataSize bytes and fills it through `DataView`
stores.  The final `for` loop copying the PCM bytes performs exactly the
byte-wise stores of `writeString`, so it is embedded through it.  The byte
rate `sampleRate * numChannels * (bitsPerSample / 8)` and block align
`numChannels * (bitsPerSample / 8)` are floating-point products that
`ToUint32`/`ToUint16` truncate toward zero, which for the magnitudes in
use equals the natural-number division by 8 after multiplying. -/
def createWavFile (pcmData : List Nat) (sampleRate numChannels bitsPerSample : Nat) :
    List Nat :=
  let dataSize := pcmData.length
  let buffer := List.replicate (44 + dataSize) 0
  -- RIFF chunk descriptor
  let v1 := writeString buffer 0 [82, 73, 70, 70]            -- 'RIFF'
  let v2 := setUint32 v1 4 (36 + dataSize)
  let v3 := writeString v2 8 [87, 65, 86, 69]                -- 'WAVE'
  -- "fmt " sub-chunk
  let v4 := writeString v3 12 [102, 109, 116, 32]            -- 'fmt '
  let v5 := setUint32 v4 16 16
  let v6 := setUint16 v5 20 1
  let v7 := setUint16 v6 22 numChannels
  let v8 := setUint32 v7 24 sampleRate
  let v9 := setUint32 v8 28 (sampleRate * numChannels * bitsPerSample / 8)
  let v10 := setUint16 v9 32 (numChannels * bitsPerSample / 8)
  let v11 := setUint16 v10 34 bitsPerSample
  -- "data" sub-chunk
  let v12 := writeString v11 36 [100, 97, 116, 97]           -- 'data'
  let v13 := setUint32 v12 40 dataSize
  writeString v13 44 pcmData

/-- Spec-side definition (spec §4.3): little-endian byte encoding of a
16-bit unsigned field. -/
def u16le (v : Nat) : List Nat :=
  [v % 2 ^ 16 % 256, v % 2 ^ 16 / 2 ^ 8 % 256]

/-- Spec-side definition (spec §4.3): little-endian byte encoding of a
32-bit unsigned field. -/
def u32le (v : Nat) : List Nat :=
  [v % 2 ^ 32 % 256, v % 2 ^ 32 / 2 ^ 8 % 256,
   v % 2 ^ 32 / 2 ^ 16 % 256, v % 2 ^ 32 / 2 ^ 24 % 256]

/-- Spec-side definition, following the words of spec §4.3: a minimal
RIFF/WAVE container as a flat concatenation — `RIFF`, total-size-minus-8,
`WAVE`, the `fmt ` sub-chunk (chunk size 16, PCM tag 1, channels, sample
rate, byte rate, block align, bits-per-sample), the `data` sub-chunk header
with the PCM byte length, then the raw PCM bytes unmodified. -/
def wavContainerSpec (pcm : List Nat) (sampleRate numChannels bitsPerSample : Nat) :
    List Nat :=
  [82, 73, 70, 70] ++ u32le (36 + pcm.length) ++ [87, 65, 86, 69]
  ++ [102, 109, 116, 32] ++ u32le 16 ++ u16le 1 ++ u16le numChannels
  ++ u32le sampleRate ++ u32le (sampleRate * numChannels * bitsPerSample / 8)
  ++ u16le (numChannels * bitsPerSample / 8) ++ u16le bitsPerSample
  ++ [100, 97, 116, 97] ++ u32le pcm.length ++ pcm

theorem writeString_exact : ∀ (codes l1 l2 : List Nat), l1.length = (off : Nat) →
    l2.length = codes.length →
    writeString (l1 ++ l2) off codes = l1 ++ codes.map (· % 256)
  | [], l1, l2, h1, h2 => by
      have : l2 = [] := List.eq_nil_of_length_eq_zero h2
      subst this
      simp [writeString]
  | c :: rest, l1, l2, h1, h2 => by
      match l2, h2 with
      | x :: l2', h2 =>
        have hset : setUint8 (l1 ++ x :: l2') off c = l1 ++ (c % 256) :: l2' := by
          unfold setUint8
          rw [← h1, List.set_append_right _ _ (Nat.le_refl _), Nat.sub_self]
          rfl
        show writeString (setUint8 (l1 ++ x :: l2') off c) (off + 1) rest = _
        rw [hset,
          show l1 ++ (c % 256) :: l2' = (l1 ++ [c % 256]) ++ l2' by simp,
          writeString_exact rest (l1 ++ [c % 256]) l2'
            (by simp [← h1]) (by simpa using h2)]
        simp

theorem setUint8_length (view : List Nat) (off v : Nat) :
    (setUint8 view off v).length = view.length := by
  simp [setUint8]

theorem setUint16_length (view : List Nat) (off v : Nat) :
    (setUint16 view off v).length = view.length := by
  simp [setUint16, setUint8]

theorem setUint32_length (view : List Nat) (off v : Nat) :
    (setUint32 view off v).length = view.length := by
  simp [setUint32, setUint8]

theorem writeString_length : ∀ (codes : List Nat) (view : List Nat) (off : Nat),
    (writeString view off codes).length = view.length
  | [], _, _ => rfl
  | c :: rest, view, off => by
      show (writeString (setUint8 view off c) (off + 1) rest).length = _
      rw [writeString_length rest, setUint8_length]

theorem setUint8_append_left (l1 l2 : List Nat) (off v : Nat) (h : off < l1.length) :
    setUint8 (l1 ++ l2) off v = setUint8 l1 off v ++ l2 := by
  simp [setUint8, List.set_append_left _ _ h]

theorem setUint16_append_left (l1 l2 : List Nat) (off v : Nat) (h : off + 1 < l1.length) :
    setUint16 (l1 ++ l2) off v = setUint16 l1 off v ++ l2 := by
  simp only [setUint16]
  rw [setUint8_append_left _ _ _ _ (by omega),
    setUint8_append_left _ _ _ _ (by rw [setUint8_length]; omega)]

theorem setUint32_append_left (l1 l2 : List Nat) (off v : Nat) (h : off + 3 < l1.length) :
    setUint32 (l1 ++ l2) off v = setUint32 l1 off v ++ l2 := by
  simp only [setUint32]
  rw [setUint8_append_left _ _ _ _ (by omega),
    setUint8_append_left _ _ _ _ (by rw [setUint8_length]; omega),
    setUint8_append_left _ _ _ _ (by rw [setUint8_length, setUint8_length]; omega),
    setUint8_append_left _ _ _ _
      (by rw [setUint8_length, setUint8_length, setUint8_length]; omega)]

theorem writeString_append_left :
    ∀ (codes : List Nat) (l1 l2 : List Nat) (off : Nat),
    off + codes.length ≤ l1.length →
    writeString (l1 ++ l2) off codes = writeString l1 off codes ++ l2
  | [], _, _, _, _ => rfl
  | c :: rest, l1, l2, off, h => by
      show writeString (setUint8 (l1 ++ l2) off c) (off + 1) rest = _
      rw [setUint8_append_left _ _ _ _ (by simp at h; omega),
        writeString_append_left rest _ _ _ (by rw [setUint8_length]; simp at h; omega)]
      rfl

/-- The 44-byte header region of `createWavFile`: the same `DataView`
stores applied to a zeroed 44-byte buffer. -/
def wavHeader (dataSize sampleRate numChannels bitsPerSample : Nat) : List Nat :=
  let buffer := List.replicate 44 0
  let v1 := writeString buffer 0 [82, 73, 70, 70]
  let v2 := setUint32 v1 4 (36 + dataSize)
  let v3 := writeString v2 8 [87, 65, 86, 69]
  let v4 := writeString v3 12 [102, 109, 116, 32]
  let v5 := setUint32 v4 16 16
  let v6 := setUint16 v5 20 1
  let v7 := setUint16 v6 22 numChannels
  let v8 := setUint32 v7 24 sampleRate
  let v9 := setUint32 v8 28 (sampleRate * numChannels * bitsPerSample / 8)
  let v10 := setUint16 v9 32 (numChannels * bitsPerSample / 8)
  let v11 := setUint16 v10 34 bitsPerSample
  let v12 := writeString v11 36 [100, 97, 116, 97]
  setUint32 v12 40 dataSize

theorem wavHeader_length (n s c b : Nat) : (wavHeader n s c b).length = 44 := by
  simp only [wavHeader]
  rw [setUint32_length, writeString_length, setUint16_length, setUint16_length,
    setUint32_length, setUint32_length, setUint16_length, setUint16_length,
    setUint32_length, writeString_length, writeString_length, setUint32_length,
    writeString_length, List.length_replicate]

theorem createWavFile_eq_header_append (pcm : List Nat) (s c b : Nat) :
    createWavFile pcm s c b = wavHeader pcm.length s c b ++ pcm.map (· % 256) := by
  simp only [createWavFile, wavHeader]
  rw [List.replicate_add,
    writeString_append_left _ _ _ _ (by simp),
    setUint32_append_left _ _ _ _ (by rw [writeString_length]; simp),
    writeString_append_left _ _ _ _
      (by rw [setUint32_length, writeString_length]; simp),
    writeString_append_left _ _ _ _
      (by rw [writeString_length, setUint32_length, writeString_length]; simp),
    setUint32_append_left _ _ _ _
      (by rw [writeString_length, writeString_length, setUint32_length,
        writeString_length]; simp),
    setUint16_append_left _ _ _ _
      (by rw [setUint32_length, writeString_length, writeString_length,
        setUint32_length, writeString_length]; simp),
    setUint16_append_left _ _ _ _
      (by rw [setUint16_length, setUint32_length, writeString_length,
        writeString_length, setUint32_length, writeString_length]; simp),
    setUint32_append_left _ _ _ _
      (by rw [setUint16_length, setUint16_length, setUint32_length,
        writeString_length, writeString_length, setUint32_length,
        writeString_length]; simp),
    setUint32_append_left _ _ _ _
      (by rw [setUint32_length, setUint16_length, setUint16_length,
        setUint32_length, writeString_length, writeString_length,
        setUint32_length, writeString_length]; simp),
    setUint16_append_left _ _ _ _
      (by rw [setUint32_length, setUint32_length, setUint16_length,
        setUint16_length, setUint32_length, writeString_length,
        writeString_length, setUint32_length, writeString_length]; simp),
    setUint16_append_left _ _ _ _
      (by rw [setUint16_length, setUint32_length, setUint32_length,
        setUint16_length, setUint16_length, setUint32_length,
        writeString_length, writeString_length, setUint32_length,
        writeString_length]; simp),
    writeString_append_left _ _ _ _
      (by rw [setUint16_length, setUint16_length, setUint32_length,
        setUint32_length, setUint16_length, setUint16_length,
        setUint32_length, writeString_length, writeString_length,
        setUint32_length, writeString_length]; simp),
    setUint32_append_left _ _ _ _
      (by rw [writeString_length, setUint16_length, setUint16_length,
        setUint32_length, setUint32_length, setUint16_length,
        setUint16_length, setUint32_length, writeString_length,
        writeString_length, setUint32_length, writeString_length]; simp),
    writeString_exact pcm _ _
      (by rw [setUint32_length, writeString_length, setUint16_length,
        setUint16_length, setUint32_length, setUint32_length,
        setUint16_length, setUint16_length, setUint32_length,
        writeString_length, writeString_length, setUint32_length,
        writeString_length, List.length_replicate])
      (by rw [List.length_replicate])]

theorem wavHeader_explicit (n s c b : Nat) :
    wavHeader n s c b =
      [82, 73, 70, 70] ++ u32le (36 + n) ++ [87, 65, 86, 69]
      ++ [102, 109, 116, 32] ++ u32le 16 ++ u16le 1 ++ u16le c
      ++ u32le s ++ u32le (s * c * b / 8) ++ u16le (c * b / 8) ++ u16le b
      ++ [100, 97, 116, 97] ++ u32le n := by
  simp only [wavHeader, u16le, u32le,
    show (List.replicate 44 (0 : Nat))
        = [0,0,0,0,0,0,0,0,0,0,0,0,0,0,0,0,0,0,0,0,0,0,
           0,0,0,0,0,0,0,0,0,0,0,0,0,0,0,0,0,0,0,0,0,0] from rfl,
    writeString, setUint32, setUint16, setUint8,
    List.set_cons_zero, List.set_cons_succ, List.cons_append, List.nil_append]

theorem map_mod256 : ∀ (l : List Nat), (∀ x ∈ l, x < 256) → l.map (· % 256) = l
  | [], _ => rfl
  | x :: rest, h => by
      simp only [List.map_cons]
      rw [Nat.mod_eq_of_lt (h x (by simp)),
        map_mod256 rest (fun y hy => h y (by simp [hy]))]

/-- C3: `createWavFile` is a pure deterministic function whose output is the
44-byte RIFF/WAVE header followed by the PCM bytes unmodified: it equals the
layout `wavContainerSpec` written from the spec, its length is
44 + len(pcm), bytes 0-3 are RIFF, bytes 4-7 the little-endian uint32
total-size-minus-8, bytes 8-11 WAVE, the fmt sub-chunk carries chunk size
16, format tag 1, channel count, sample rate, byte rate, block align and
bits-per-sample, bytes 36-39 are data, bytes 40-43 the little-endian PCM
byte length, and the remaining bytes are the input PCM bytes. -/
theorem createWavFile_correct (pcm : List Nat) (s c b : Nat)
    (hb : ∀ x ∈ pcm, x < 256) :
    createWavFile pcm s c b = wavContainerSpec pcm s c b ∧
    (createWavFile pcm s c b).length = 44 + pcm.length ∧
    (createWavFile pcm s c b).take 4 = [82, 73, 70, 70] ∧
    ((createWavFile pcm s c b).drop 4).take 4 = u32le (36 + pcm.length) ∧
    ((createWavFile pcm s c b).drop 8).take 4 = [87, 65, 86, 69] ∧
    ((createWavFile pcm s c b).drop 12).take 4 = [102, 109, 116, 32] ∧
    ((createWavFile pcm s c b).drop 16).take 4 = u32le 16 ∧
    ((createWavFile pcm s c b).drop 20).take 2 = u16le 1 ∧
    ((createWavFile pcm s c b).drop 22).take 2 = u16le c ∧
    ((createWavFile pcm s c b).drop 24).take 4 = u32le s ∧
    ((createWavFile pcm s c b).drop 28).take 4 = u32le (s * c * b / 8) ∧
    ((createWavFile pcm s c b).drop 32).take 2 = u16le (c * b / 8) ∧
    ((createWavFile pcm s c b).drop 34).take 2 = u16le b ∧
    ((createWavFile pcm s c b).drop 36).take 4 = [100, 97, 116, 97] ∧
    ((createWavFile pcm s c b).drop 40).take 4 = u32le pcm.length ∧
    (createWavFile pcm s c b).drop 44 = pcm := by
  have hmap : pcm.map (· % 256) = pcm := map_mod256 pcm hb
  have he : createWavFile pcm s c b = wavHeader pcm.length s c b ++ pcm := by
    rw [createWavFile_eq_header_append, hmap]
  have hspec : createWavFile pcm s c b = wavContainerSpec pcm s c b := by
    rw [he, wavHeader_explicit, wavContainerSpec]
  refine ⟨hspec, ?_, ?_, ?_, ?_, ?_, ?_, ?_, ?_, ?_, ?_, ?_, ?_, ?_, ?_, ?_⟩
  · rw [he]
    simp [wavHeader_length]
  all_goals
    rw [he, wavHeader_explicit]
    try simp [u16le, u32le]

/-- Witness for C3: `createWavFile_correct` evaluated on the concrete
two-byte PCM payload `[7, 200]` at 24000 Hz mono, 16 bits per sample. -/
theorem createWavFile_correct_witness :
    (∀ x ∈ ([7, 200] : List Nat), x < 256) ∧
    createWavFile [7, 200] 24000 1 16 = wavContainerSpec [7, 200] 24000 1 16 :=
  ⟨by decide, (createWavFile_correct [7, 200] 24000 1 16 (by decide)).1⟩

/-! ### Playback controller state machine (LoginPage.tsx lines 253-414)

The component state relevant to audio playback: the `audioState` React
state, the refs `audioSourceNodeRef`, `audioBufferRef`, `pauseTimeRef`,
`startTimeRef`, the lazily created shared `AudioContext`
(`audioContextRef`), and the Web-Audio source nodes the component creates.
Source nodes are modelled as records carrying a fresh numeric id (standing
for object identity, which the source compares with `===`), whether the
node is currently producing output (`active`: started and not yet
stopped/ended), and whether its `onended` completion callback is still
attached.  Each event handler of the component becomes one step function;
the `useEffect` watching `result?.voiceoverAudio` becomes the
`newPayloadEffect` step. -/

inductive AudioState
  | stopped
  | playing
  | paused
  deriving DecidableEq, Repr

structure Controller where
  audioState : AudioState
  audioSourceNode : Option Nat
  audioBuffer : Option AudioBuffer
  pauseTime : ℚ
  startTime : ℚ
  deriving DecidableEq, Repr

inductive StreamOwner
  | controller
  | sample
  deriving DecidableEq, Repr

structure Stream where
  id : Nat
  owner : StreamOwner
  active : Bool
  onendedAttached : Bool
  startOffset : ℚ
  rate : ℚ
  deriving DecidableEq, Repr

structure World where
  ctrl : Controller
  streams : List Stream
  nextId : Nat
  now : ℚ
  hasPayload : Bool
  ctxExists : Bool
  sampleLoading : Bool
  playbackRate : ℚ
  deriving DecidableEq, Repr

/-- Truncation toward zero, as JavaScript float-to-integer operations do. -/
def jsTrunc (q : ℚ) : ℤ := if q < 0 then -⌊-q⌋ else ⌊q⌋

/-- The JavaScript remainder operator `a % b` on finite numbers:
`a - b * trunc(a / b)`. -/
def jsMod (a b : ℚ) : ℚ := a - b * ((jsTrunc (a / b) : ℤ) : ℚ)

/-- Tail of `playAudio` after a decoded buffer is available (LoginPage.tsx
lines 349-367): create a buffer source at the current `playbackRate`,
register the completion callback, start it at
`pauseTimeRef.current % (audioBufferRef.current?.duration || 1)`, track it
in `audioSourceNodeRef`, record `startTimeRef = currentTime - offset` and
set the state to `playing`. -/
def startStream (w : World) (buf : AudioBuffer) : World :=
  let offset := jsMod w.ctrl.pauseTime (if buf.duration = 0 then 1 else buf.duration)
  { w with
    nextId := w.nextId + 1
    streams := w.streams ++
      [{ id := w.nextId, owner := .controller, active := true,
         onendedAttached := true, startOffset := offset, rate := w.playbackRate }]
    ctrl := { w.ctrl with
      audioSourceNode := some w.nextId
      startTime := w.now - offset
      audioState := .playing } }

/-- Embedding of `playAudio` (LoginPage.tsx lines 327-368).  Returns early
when no voiceover payload exists; (re)creates the shared context if absent,
clearing the cached buffer to force re-decoding; decodes lazily when no
buffer is cached, returning with the state untouched when decoding fails
(the failure is logged, not thrown); then hands over to `startStream`.
The decode outcome is passed in as `decodeResult`. -/
def playAudio (w : World) (decodeResult : Except String AudioBuffer) : World :=
  if w.hasPayload = false then w
  else
    let w1 := if w.ctxExists then w
      else { w with ctxExists := true, ctrl := { w.ctrl with audioBuffer := none } }
    match w1.ctrl.audioBuffer with
    | some buf => startStream w1 buf
    | none =>
      match decodeResult with
      | .error _ => w1
      | .ok buf =>
          startStream { w1 with ctrl := { w1.ctrl with audioBuffer := some buf } } buf

/-- Embedding of `pauseAudio` (LoginPage.tsx lines 370-381): returns early
when no stream is tracked or no context exists; otherwise stores the
elapsed time, detaches the tracked stream's completion callback, stops it,
clears the tracked reference and sets the state to `paused`. -/
def pauseAudio (w : World) : World :=
  match w.ctrl.audioSourceNode with
  | none => w
  | some sid =>
    if w.ctxExists = false then w
    else
      { w with
        streams := w.streams.map fun st =>
          if st.id = sid then { st with active := false, onendedAttached := false }
          else st
        ctrl := { w.ctrl with
          pauseTime := w.now - w.ctrl.startTime
          audioSourceNode := none
          audioState := .paused } }

/-- Embedding of `handlePlayPause` (LoginPage.tsx lines 383-389), the only
caller of `playAudio`. -/
def handlePlayPause (w : World) (decodeResult : Except String AudioBuffer) : World :=
  if w.ctrl.audioState = .playing then pauseAudio w else playAudio w decodeResult

/-- A stream finishing naturally: the node stops producing output and its
`onended` callback (LoginPage.tsx lines 354-360) runs if still attached.
The callback body transitions to `stopped`, resets the offset and clears
the tracked reference only under the guard
`audioSourceNodeRef.current === source`. -/
def fireCompletion (w : World) (sid : Nat) : World :=
  match w.streams.find? (fun st => st.id = sid) with
  | none => w
  | some st =>
    if st.active = false then w
    else
      let streams := w.streams.map fun t =>
        if t.id = sid then { t with active := false } else t
      if st.onendedAttached = true ∧ w.ctrl.audioSourceNode = some sid then
        { w with streams := streams
                 ctrl := { w.ctrl with
                   audioState := .stopped
                   pauseTime := 0
                   audioSourceNode := none } }
      else { w with streams := streams }

/-- Embedding of the `useEffect` watching `result?.voiceoverAudio`
(LoginPage.tsx lines 313-324), which runs when a new truthy payload
arrives: detach the tracked stream's completion callback, stop it, set the
state to `stopped`, clear the cached decoded buffer and the tracked
reference, and reset the offset to 0. -/
def newPayloadEffect (w : World) : World :=
  let streams := match w.ctrl.audioSourceNode with
    | some sid => w.streams.map fun st =>
        if st.id = sid then { st with active := false, onendedAttached := false }
        else st
    | none => w.streams
  { w with
    hasPayload := true
    streams := streams
    ctrl := { w.ctrl with
      audioState := .stopped
      audioBuffer := none
      audioSourceNode := none
      pauseTime := 0 } }

/-- Embedding of `handlePlaySampleVoice` (LoginPage.tsx lines 392-414):
guarded by `sampleLoadingVoice`; creates the shared context if absent
(without clearing the cached voiceover buffer), decodes the sample clip
into a fresh local buffer and starts an untracked source node for it; any
fetch/decode failure is caught and logged.  None of the playback
controller's state is touched. -/
def handlePlaySampleVoice (w : World) (decodeResult : Except String AudioBuffer) :
    World :=
  if w.sampleLoading = true then w
  else
    let w1 := if w.ctxExists then w else { w with ctxExists := true }
    match decodeResult with
    | .error _ => w1
    | .ok _ =>
      { w1 with
        nextId := w1.nextId + 1
        streams := w1.streams ++
          [{ id := w1.nextId, owner := .sample, active := true,
             onendedAttached := false, startOffset := 0, rate := w1.playbackRate }] }

/-- The observable playback operations of the component. -/
inductive Op
  | playPause (decodeResult : Except String AudioBuffer)
  | streamEnded (sid : Nat)
  | newPayload
  | playSample (decodeResult : Except String AudioBuffer)
  | advance (dt : ℚ)
  | setRate (r : ℚ)

def step (w : World) : Op → World
  | .playPause dr => handlePlayPause w dr
  | .streamEnded sid => fireCompletion w sid
  | .newPayload => newPayloadEffect w
  | .playSample dr => handlePlaySampleVoice w dr
  | .advance dt => { w with now := w.now + dt }
  | .setRate r => { w with playbackRate := r }

/-- The component's initial state: `useState('stopped')`, null refs,
`pauseTimeRef = 0`, `startTimeRef = 0`, playback rate 1.0. -/
def init : World :=
  { ctrl := { audioState := .stopped, audioSourceNode := none, audioBuffer := none,
              pauseTime := 0, startTime := 0 }
    streams := [], nextId := 0, now := 0, hasPayload := false,
    ctxExists := false, sampleLoading := false, playbackRate := 1 }

def run (ops : List Op) : World := ops.foldl step init

/-- The output streams started by the playback controller that are
currently producing audio. -/
def activeControllerStreams (w : World) : List Stream :=
  w.streams.filter fun st => st.owner == StreamOwner.controller && st.active

/-- State invariant of the playback controller: stream ids are below the
id counter and pairwise distinct, every active controller-owned stream is
the tracked one, outside the `playing` state nothing is tracked, the
tracked id is below the id counter, and in the `playing` state the shared
context exists. -/
def Inv (w : World) : Prop :=
  (∀ st ∈ w.streams, st.id < w.nextId) ∧
  (w.streams.map Stream.id).Nodup ∧
  (∀ st ∈ w.streams, st.owner = .controller → st.active = true →
      w.ctrl.audioSourceNode = some st.id) ∧
  (w.ctrl.audioState ≠ .playing → w.ctrl.audioSourceNode = none) ∧
  (∀ i ∈ w.ctrl.audioSourceNode.toList, i < w.nextId) ∧
  (w.ctrl.audioState = .playing → w.ctxExists = true)

theorem map_update_ids (streams : List Stream) (f : Stream → Stream)
    (hf : ∀ st, (f st).id = st.id) :
    (streams.map f).map Stream.id = streams.map Stream.id := by
  rw [List.map_map]
  exact List.map_congr_left fun st _ => hf st

theorem inv_startStream (w : World) (buf : AudioBuffer)
    (h : Inv w) (hnone : w.ctrl.audioSourceNode = none) (hctx : w.ctxExists = true) :
    Inv (startStream w buf) := by
  obtain ⟨h1, h2, h3, _, _, _⟩ := h
  refine ⟨?_, ?_, ?_, ?_, ?_, ?_⟩
  · intro st hst
    simp only [startStream, List.mem_append, List.mem_singleton] at hst
    simp only [startStream]
    rcases hst with hst | rfl
    · exact Nat.lt_succ_of_lt (h1 st hst)
    · exact Nat.lt_succ_self _
  · simp only [startStream, List.map_append, List.map_cons, List.map_nil]
    rw [List.nodup_append]
    refine ⟨h2, List.nodup_singleton _, ?_⟩
    intro i hi hi'
    simp only [List.mem_singleton] at hi'
    subst hi'
    simp only [List.mem_map] at hi
    obtain ⟨st, hst, hid⟩ := hi
    exact absurd (hid ▸ h1 st hst) (Nat.lt_irrefl _)
  · intro st hst howner hactive
    simp only [startStream, List.mem_append, List.mem_singleton] at hst
    simp only [startStream]
    rcases hst with hst | rfl
    · exact absurd (h3 st hst howner hactive) (by rw [hnone]; exact Option.noConfusion)
    · rfl
  · intro hns
    exact absurd rfl hns
  · intro i hi
    simp only [startStream, Option.toList_some, List.mem_singleton] at hi
    subst hi
    simp only [startStream]
    exact Nat.lt_succ_self _
  · intro _
    simpa only [startStream] using hctx

theorem Inv.congr {w w' : World} (h : Inv w)
    (hs : w'.streams = w.streams) (hn : w'.nextId = w.nextId)
    (hc : w'.ctrl.audioSourceNode = w.ctrl.audioSourceNode)
    (ha : w'.ctrl.audioState = w.ctrl.audioState)
    (hx : w'.ctxExists = true ∨ w'.ctxExists = w.ctxExists) : Inv w' := by
  obtain ⟨h1, h2, h3, h4, h5, h6⟩ := h
  refine ⟨?_, ?_, ?_, ?_, ?_, ?_⟩
  · rw [hs, hn]; exact h1
  · rw [hs]; exact h2
  · rw [hs, hc]; exact h3
  · rw [ha, hc]; exact h4
  · rw [hc, hn]; exact h5
  · intro hpl
    rcases hx with hx | hx
    · exact hx
    · rw [hx]; exact h6 (ha ▸ hpl)

theorem inv_playAudio (w : World) (dr : Except String AudioBuffer)
    (h : Inv w) (hnp : w.ctrl.audioState ≠ .playing) :
    Inv (playAudio w dr) := by
  unfold playAudio
  by_cases hp : w.hasPayload = false
  · rw [if_pos hp]
    exact h
  · rw [if_neg hp]
    by_cases hctx : w.ctxExists = true
    · rw [if_pos hctx]
      show Inv (match w.ctrl.audioBuffer with
        | some buf => startStream w buf
        | none => match dr with
          | .error _ => w
          | .ok buf =>
              startStream { w with ctrl := { w.ctrl with audioBuffer := some buf } } buf)
      cases hbuf : w.ctrl.audioBuffer with
      | some buf =>
        exact inv_startStream w buf h (h.2.2.2.1 hnp) hctx
      | none =>
        cases dr with
        | error e => exact h
        | ok buf =>
          apply inv_startStream _ buf _ (h.2.2.2.1 hnp) hctx
          exact h.congr rfl rfl rfl rfl (Or.inr rfl)
    · rw [if_neg hctx]
      show Inv (match dr with
        | Except.error _ =>
            { w with ctxExists := true, ctrl := { w.ctrl with audioBuffer := none } }
        | Except.ok buf =>
            startStream
              { w with ctxExists := true, ctrl := { w.ctrl with audioBuffer := some buf } }
              buf)
      cases dr with
      | error e =>
        exact h.congr rfl rfl rfl rfl (Or.inl rfl)
      | ok buf =>
        apply inv_startStream _ buf _ _ rfl
        · exact h.congr rfl rfl rfl rfl (Or.inl rfl)
        · exact h.2.2.2.1 hnp

theorem stream_update_id (sid : Nat) (st : Stream) :
    ((if st.id = sid then { st with active := false, onendedAttached := false }
      else st) : Stream).id = st.id := by
  split <;> rfl

theorem stream_deactivate_id (sid : Nat) (st : Stream) :
    ((if st.id = sid then { st with active := false } else st) : Stream).id = st.id := by
  split <;> rfl

theorem inv_pauseAudio (w : World) (h : Inv w) : Inv (pauseAudio w) := by
  unfold pauseAudio
  split
  · exact h
  next sid hsrc =>
    split
    · exact h
    next hctx =>
      obtain ⟨h1, h2, h3, _, _, _⟩ := h
      refine ⟨?_, ?_, ?_, fun _ => rfl, by simp, fun hpl => nomatch hpl⟩
      · intro st hst
        simp only [List.mem_map] at hst
        obtain ⟨st0, hst0, rfl⟩ := hst
        rw [stream_update_id sid st0]
        exact h1 st0 hst0
      · show ((w.streams.map _).map Stream.id).Nodup
        rw [map_update_ids _ _ (stream_update_id sid)]
        exact h2
      · intro st hst howner hactive
        simp only [List.mem_map] at hst
        obtain ⟨st0, hst0, rfl⟩ := hst
        by_cases hid : st0.id = sid
        · rw [if_pos hid] at hactive
          exact absurd hactive (by simp)
        · rw [if_neg hid] at howner hactive
          have := h3 st0 hst0 howner hactive
          rw [hsrc] at this
          exact absurd (Option.some_injective _ this).symm hid

theorem inv_fireCompletion (w : World) (sid : Nat) (h : Inv w) :
    Inv (fireCompletion w sid) := by
  unfold fireCompletion
  split
  · exact h
  next st hfind =>
    split
    · exact h
    next hact =>
      obtain ⟨h1, h2, h3, h4, h5, h6⟩ := h
      have hids : ∀ st0 ∈ w.streams,
          ((if st0.id = sid then { st0 with active := false } else st0) : Stream).id
            < w.nextId := by
        intro st0 hst0
        rw [stream_deactivate_id sid st0]
        exact h1 st0 hst0
      have hnd : ((w.streams.map fun t =>
          if t.id = sid then { t with active := false } else t).map Stream.id).Nodup := by
        rw [map_update_ids _ _ (stream_deactivate_id sid)]
        exact h2
      split
      next hguard =>
        refine ⟨?_, hnd, ?_, fun _ => rfl, by simp, fun hpl => nomatch hpl⟩
        · intro st' hst'
          simp only [List.mem_map] at hst'
          obtain ⟨st0, hst0, rfl⟩ := hst'
          exact hids st0 hst0
        · intro st' hst' howner hactive
          simp only [List.mem_map] at hst'
          obtain ⟨st0, hst0, rfl⟩ := hst'
          by_cases hid : st0.id = sid
          · rw [if_pos hid] at hactive
            exact absurd hactive (by simp)
          · rw [if_neg hid] at howner hactive
            have := h3 st0 hst0 howner hactive
            rw [hguard.2] at this
            exact absurd (Option.some_injective _ this).symm hid
      next hguard =>
        refine ⟨?_, hnd, ?_, h4, h5, h6⟩
        · intro st' hst'
          simp only [List.mem_map] at hst'
          obtain ⟨st0, hst0, rfl⟩ := hst'
          exact hids st0 hst0
        · intro st' hst' howner hactive
          simp only [List.mem_map] at hst'
          obtain ⟨st0, hst0, rfl⟩ := hst'
          by_cases hid : st0.id = sid
          · rw [if_pos hid] at hactive
            exact absurd hactive (by simp)
          · rw [if_neg hid] at howner hactive ⊢
            exact h3 st0 hst0 howner hactive

theorem inv_newPayloadEffect (w : World) (h : Inv w) : Inv (newPayloadEffect w) := by
  unfold newPayloadEffect
  obtain ⟨h1, h2, h3, _, _, _⟩ := h
  cases hsrc : w.ctrl.audioSourceNode with
  | none =>
    show Inv { w with
      hasPayload := true
      streams := w.streams
      ctrl := { w.ctrl with
        audioState := .stopped
        audioBuffer := none
        audioSourceNode := none
        pauseTime := 0 } }
    refine ⟨h1, h2, ?_, fun _ => rfl, by simp, fun hpl => nomatch hpl⟩
    intro st hst howner hactive
    have := h3 st hst howner hactive
    rw [hsrc] at this
    exact Option.noConfusion this
  | some sid =>
    show Inv { w with
      hasPayload := true
      streams := w.streams.map fun st =>
        if st.id = sid then { st with active := false, onendedAttached := false }
        else st
      ctrl := { w.ctrl with
        audioState := .stopped
        audioBuffer := none
        audioSourceNode := none
        pauseTime := 0 } }
    refine ⟨?_, ?_, ?_, fun _ => rfl, by simp, fun hpl => nomatch hpl⟩
    · intro st hst
      simp only [List.mem_map] at hst
      obtain ⟨st0, hst0, rfl⟩ := hst
      rw [stream_update_id sid st0]
      exact h1 st0 hst0
    · show ((w.streams.map _).map Stream.id).Nodup
      rw [map_update_ids _ _ (stream_update_id sid)]
      exact h2
    · intro st hst howner hactive
      simp only [List.mem_map] at hst
      obtain ⟨st0, hst0, rfl⟩ := hst
      by_cases hid : st0.id = sid
      · rw [if_pos hid] at hactive
        exact absurd hactive (by simp)
      · rw [if_neg hid] at howner hactive
        have := h3 st0 hst0 howner hactive
        rw [hsrc] at this
        exact absurd (Option.some_injective _ this).symm hid

theorem inv_appendSample (w : World) (h : Inv w) :
    Inv { w with
      nextId := w.nextId + 1
      streams := w.streams ++
        [{ id := w.nextId, owner := .sample, active := true,
           onendedAttached := false, startOffset := 0, rate := w.playbackRate }] } := by
  obtain ⟨h1, h2, h3, h4, h5, h6⟩ := h
  refine ⟨?_, ?_, ?_, ?_, ?_, h6⟩
  · intro st hst
    simp only [List.mem_append, List.mem_singleton] at hst
    rcases hst with hst | rfl
    · exact Nat.lt_succ_of_lt (h1 st hst)
    · exact Nat.lt_succ_self _
  · show ((w.streams ++ [_]).map Stream.id).Nodup
    rw [List.map_append, List.nodup_append]
    refine ⟨h2, List.nodup_singleton _, ?_⟩
    intro i hi hi'
    simp only [List.map_cons, List.map_nil, List.mem_singleton] at hi'
    subst hi'
    simp only [List.mem_map] at hi
    obtain ⟨st, hst, hid⟩ := hi
    exact absurd (hid ▸ h1 st hst) (Nat.lt_irrefl _)
  · intro st hst howner hactive
    simp only [List.mem_append, List.mem_singleton] at hst
    rcases hst with hst | rfl
    · exact h3 st hst howner hactive
    · exact absurd howner (by simp)
  · exact h4
  · intro i hi
    exact Nat.lt_succ_of_lt (h5 i hi)

theorem inv_playSample (w : World) (dr : Except String AudioBuffer) (h : Inv w) :
    Inv (handlePlaySampleVoice w dr) := by
  unfold handlePlaySampleVoice
  by_cases hl : w.sampleLoading = true
  · rw [if_pos hl]
    exact h
  · rw [if_neg hl]
    by_cases hctx : w.ctxExists = true
    · rw [if_pos hctx]
      cases dr with
      | error e => exact h
      | ok buf => exact inv_appendSample w h
    · rw [if_neg hctx]
      cases dr with
      | error e => exact h.congr rfl rfl rfl rfl (Or.inl rfl)
      | ok buf =>
        exact inv_appendSample { w with ctxExists := true }
          (h.congr rfl rfl rfl rfl (Or.inl rfl))

theorem inv_step (w : World) (op : Op) (h : Inv w) : Inv (step w op) := by
  cases op with
  | playPause dr =>
    show Inv (handlePlayPause w dr)
    unfold handlePlayPause
    by_cases hpl : w.ctrl.audioState = .playing
    · rw [if_pos hpl]
      exact inv_pauseAudio w h
    · rw [if_neg hpl]
      exact inv_playAudio w dr h hpl
  | streamEnded sid => exact inv_fireCompletion w sid h
  | newPayload => exact inv_newPayloadEffect w h
  | playSample dr => exact inv_playSample w dr h
  | advance dt =>
    obtain ⟨h1, h2, h3, h4, h5, h6⟩ := h
    exact ⟨h1, h2, h3, h4, h5, h6⟩
  | setRate r =>
    obtain ⟨h1, h2, h3, h4, h5, h6⟩ := h
    exact ⟨h1, h2, h3, h4, h5, h6⟩

theorem inv_init : Inv init := by
  refine ⟨by simp [init], by simp [init], by simp [init], fun _ => rfl,
    by simp [init], fun hpl => nomatch hpl⟩

theorem inv_foldl : ∀ (ops : List Op) (w : World), Inv w → Inv (ops.foldl step w)
  | [], _, h => h
  | op :: rest, w, h => inv_foldl rest (step w op) (inv_step w op h)

theorem inv_run (ops : List Op) : Inv (run ops) :=
  inv_foldl ops init inv_init

theorem length_le_one_of_nodup_ids (l : List Stream) (sid : Nat)
    (hnd : (l.map Stream.id).Nodup) (hall : ∀ st ∈ l, st.id = sid) :
    l.length ≤ 1 := by
  match l with
  | [] => simp
  | [st] => simp
  | st1 :: st2 :: rest =>
    exfalso
    rw [List.map_cons, List.nodup_cons] at hnd
    apply hnd.1
    rw [hall st1 (by simp), ← hall st2 (by simp)]
    exact List.mem_map_of_mem _ (by simp)

theorem active_controller_le_one (w : World) (h : Inv w) :
    (activeControllerStreams w).length ≤ 1 := by
  obtain ⟨_, h2, h3, _, _, _⟩ := h
  unfold activeControllerStreams
  cases hsrc : w.ctrl.audioSourceNode with
  | none =>
    have hnil : w.streams.filter
        (fun st => st.owner == StreamOwner.controller && st.active) = [] := by
      rw [List.filter_eq_nil_iff]
      intro st hst hpred
      simp only [Bool.and_eq_true, beq_iff_eq] at hpred
      have := h3 st hst hpred.1 hpred.2
      rw [hsrc] at this
      exact Option.noConfusion this
    rw [hnil]
    simp
  | some sid =>
    apply length_le_one_of_nodup_ids _ sid
    · exact h2.sublist ((List.filter_sublist w.streams).map Stream.id)
    · intro st hst
      have hmem := List.mem_filter.mp hst
      have hpred := hmem.2
      simp only [Bool.and_eq_true, beq_iff_eq] at hpred
      have := h3 st hmem.1 hpred.1 hpred.2
      rw [hsrc] at this
      exact (Option.some_injective _ this).symm

/-- C1: along every sequence of playback operations from the initial
component state, at most one controller-owned output stream is active at
any instant (the tracked handle `audioSourceNode` is a single `Option`);
and a play/pause request issued while the controller is in the `playing`
state terminates the currently tracked stream and starts no new stream in
that step, so a new stream can only start after the previous one has been
stopped and no two controller streams ever play simultaneously. -/
theorem no_overlap_invariant :
    (∀ ops : List Op, (activeControllerStreams (run ops)).length ≤ 1) ∧
    (∀ (w : World) (dr : Except String AudioBuffer) (sid : Nat), Inv w →
      w.ctrl.audioState = .playing → w.ctrl.audioSourceNode = some sid →
      (∀ st ∈ (handlePlayPause w dr).streams, st.id = sid → st.active = false) ∧
      (handlePlayPause w dr).nextId = w.nextId ∧
      (handlePlayPause w dr).streams.length = w.streams.length) := by
  constructor
  · intro ops
    exact active_controller_le_one (run ops) (inv_run ops)
  · intro w dr sid hinv hpl hsrc
    have hctx : w.ctxExists = true := hinv.2.2.2.2.2 hpl
    unfold handlePlayPause
    rw [if_pos hpl]
    unfold pauseAudio
    split
    next hnone =>
      rw [hsrc] at hnone
      exact Option.noConfusion hnone
    next sid2 hsome =>
      have hsid : sid2 = sid :=
        Option.some_injective _ (hsome.symm.trans hsrc)
      split
      next hcf =>
        rw [hctx] at hcf
        exact absurd hcf (by simp)
      next =>
        subst hsid
        refine ⟨?_, rfl, by simp⟩
        intro st hst hid
        simp only [List.mem_map] at hst
        obtain ⟨st0, hst0, rfl⟩ := hst
        by_cases h0 : st0.id = sid2
        · rw [if_pos h0]
        · rw [if_neg h0] at hid ⊢
          exact absurd hid h0

/-- Concrete reachable-shape world used by the C1 witness: one active
tracked controller stream, state `playing`. -/
def witnessWorldC1 : World :=
  { ctrl := { audioState := .playing, audioSourceNode := some 0,
              audioBuffer := some ⟨1, 1, 24000, [[0]]⟩,
              pauseTime := 0, startTime := 0 }
    streams := [{ id := 0, owner := .controller, active := true,
                  onendedAttached := true, startOffset := 0, rate := 1 }]
    nextId := 1, now := 0, hasPayload := true,
    ctxExists := true, sampleLoading := false, playbackRate := 1 }

/-- Witness for C1: the second conjunct of `no_overlap_invariant`
evaluated at `witnessWorldC1`. -/
theorem no_overlap_invariant_witness :
    Inv witnessWorldC1 ∧
    witnessWorldC1.ctrl.audioState = .playing ∧
    witnessWorldC1.ctrl.audioSourceNode = some 0 ∧
    ((∀ st ∈ (handlePlayPause witnessWorldC1 (.error "e")).streams,
        st.id = 0 → st.active = false) ∧
      (handlePlayPause witnessWorldC1 (.error "e")).nextId = witnessWorldC1.nextId ∧
      (handlePlayPause witnessWorldC1 (.error "e")).streams.length
        = witnessWorldC1.streams.length) :=
  ⟨by unfold Inv; decide, by decide, by decide,
    no_overlap_invariant.2 witnessWorldC1 (.error "e") 0 (by unfold Inv; decide)
      (by decide) (by decide)⟩

theorem pauseAudio_pauseTime (w : World) (sid : Nat)
    (hsrc : w.ctrl.audioSourceNode = some sid) (hctx : w.ctxExists = true) :
    (pauseAudio w).ctrl.pauseTime = w.now - w.ctrl.startTime := by
  unfold pauseAudio
  split
  next hnone =>
    rw [hsrc] at hnone
    exact Option.noConfusion hnone
  next sid2 hsome =>
    split
    next hcf =>
      rw [hctx] at hcf
      exact absurd hcf (by simp)
    next => rfl

/-- C5: from a `paused` state with stored offset `t ≥ 0` and a cached
decoded buffer of duration `d > 0`, a play request starts the new stream at
offset `t mod d = t - d * ⌊t / d⌋` (not at zero), records the new effective
start time as `now - offset` and transitions to `playing`; pausing `dt`
seconds later therefore stores offset `(t mod d) + dt`, so subsequent pause
calculations remain correct. -/
theorem resume_starts_at_offset (w : World) (dr : Except String AudioBuffer)
    (buf : AudioBuffer) (t : ℚ)
    (hstate : w.ctrl.audioState = .paused)
    (hbuf : w.ctrl.audioBuffer = some buf)
    (hdur : 0 < buf.duration)
    (ht : w.ctrl.pauseTime = t) (ht0 : 0 ≤ t)
    (hpay : w.hasPayload = true) (hctx : w.ctxExists = true) :
    (handlePlayPause w dr).streams
      = w.streams ++
        [{ id := w.nextId, owner := .controller, active := true,
           onendedAttached := true,
           startOffset := t - buf.duration * ((⌊t / buf.duration⌋ : ℤ) : ℚ),
           rate := w.playbackRate }] ∧
    (handlePlayPause w dr).ctrl.startTime
      = w.now - (t - buf.duration * ((⌊t / buf.duration⌋ : ℤ) : ℚ)) ∧
    (handlePlayPause w dr).ctrl.audioState = .playing ∧
    (∀ dt : ℚ,
      (pauseAudio { (handlePlayPause w dr) with now := w.now + dt }).ctrl.pauseTime
        = (t - buf.duration * ((⌊t / buf.duration⌋ : ℤ) : ℚ)) + dt) := by
  have hplay : handlePlayPause w dr = startStream w buf := by
    unfold handlePlayPause
    rw [if_neg (by simp [hstate])]
    unfold playAudio
    rw [if_neg (by simp [hpay]), if_pos hctx]
    show (match w.ctrl.audioBuffer with
      | some buf => startStream w buf
      | none =>
        match dr with
        | Except.error _ => w
        | Except.ok buf =>
            startStream
              { w with ctrl := { w.ctrl with audioBuffer := some buf } } buf)
      = startStream w buf
    rw [hbuf]
  have hoffset : jsMod w.ctrl.pauseTime (if buf.duration = 0 then 1 else buf.duration)
      = t - buf.duration * ((⌊t / buf.duration⌋ : ℤ) : ℚ) := by
    rw [ht, if_neg (ne_of_gt hdur)]
    unfold jsMod jsTrunc
    rw [if_neg (not_lt.mpr (div_nonneg ht0 (le_of_lt hdur)))]
  refine ⟨?_, ?_, ?_, ?_⟩
  · rw [hplay]
    show w.streams ++
        [{ id := w.nextId, owner := .controller, active := true,
           onendedAttached := true,
           startOffset := jsMod w.ctrl.pauseTime
             (if buf.duration = 0 then 1 else buf.duration),
           rate := w.playbackRate }] = _
    rw [hoffset]
  · rw [hplay]
    show w.now - jsMod w.ctrl.pauseTime
        (if buf.duration = 0 then 1 else buf.duration) = _
    rw [hoffset]
  · rw [hplay]
    rfl
  · intro dt
    rw [hplay]
    rw [pauseAudio_pauseTime { (startStream w buf) with now := w.now + dt }
      w.nextId rfl hctx]
    show w.now + dt - (w.now - jsMod w.ctrl.pauseTime
        (if buf.duration = 0 then 1 else buf.duration)) = _
    rw [hoffset]
    ring

/-- Concrete decoded buffer of duration 2 used by the C5 witness. -/
def witnessBufC5 : AudioBuffer :=
  { numChannels := 1, frameCount := 2, sampleRate := 1, channelData := [[0, 0]] }

/-- Concrete paused world used by the C5 witness. -/
def witnessWorldC5 : World :=
  { ctrl := { audioState := .paused, audioSourceNode := none,
              audioBuffer := some witnessBufC5, pauseTime := 3, startTime := 0 }
    streams := [], nextId := 0, now := 10, hasPayload := true,
    ctxExists := true, sampleLoading := false, playbackRate := 1 }

/-- Witness for C5: `resume_starts_at_offset` at a concrete paused world
with stored offset 3 and a cached buffer of duration 2, resuming at offset
3 mod 2 = 1. -/
theorem resume_starts_at_offset_witness :
    witnessWorldC5.ctrl.audioState = .paused ∧
    witnessWorldC5.ctrl.audioBuffer = some witnessBufC5 ∧
    0 < witnessBufC5.duration ∧
    witnessWorldC5.ctrl.pauseTime = 3 ∧ (0 : ℚ) ≤ 3 ∧
    witnessWorldC5.hasPayload = true ∧ witnessWorldC5.ctxExists = true ∧
    ((handlePlayPause witnessWorldC5 (.error "e")).streams
      = witnessWorldC5.streams ++
        [{ id := witnessWorldC5.nextId, owner := .controller, active := true,
           onendedAttached := true,
           startOffset := 3 - witnessBufC5.duration
               * ((⌊(3 : ℚ) / witnessBufC5.duration⌋ : ℤ) : ℚ),
           rate := witnessWorldC5.playbackRate }] ∧
     (handlePlayPause witnessWorldC5 (.error "e")).ctrl.startTime
       = witnessWorldC5.now - (3 - witnessBufC5.duration
           * ((⌊(3 : ℚ) / witnessBufC5.duration⌋ : ℤ) : ℚ)) ∧
     (handlePlayPause witnessWorldC5 (.error "e")).ctrl.audioState = .playing ∧
     (∀ dt : ℚ,
       (pauseAudio { (handlePlayPause witnessWorldC5 (.error "e")) with
           now := witnessWorldC5.now + dt }).ctrl.pauseTime
         = (3 - witnessBufC5.duration
             * ((⌊(3 : ℚ) / witnessBufC5.duration⌋ : ℤ) : ℚ)) + dt)) :=
  ⟨rfl, rfl, by norm_num [AudioBuffer.duration, witnessBufC5], rfl, by norm_num,
   rfl, rfl,
   resume_starts_at_offset witnessWorldC5 (.error "e") witnessBufC5 3 rfl rfl
     (by norm_num [AudioBuffer.duration, witnessBufC5]) rfl (by norm_num) rfl rfl⟩

/-- C6: a completion callback fired by a stream that is no longer the
tracked one never changes the controller state; conversely, whenever firing
a completion changes the controller state, the completing stream was still
the tracked one and the result is the `stopped` state with offset 0 and no
tracked stream. -/
theorem stale_completion_suppressed :
    (∀ (w : World) (sid : Nat), w.ctrl.audioSourceNode ≠ some sid →
      (fireCompletion w sid).ctrl = w.ctrl) ∧
    (∀ (w : World) (sid : Nat),
      (fireCompletion w sid).ctrl = w.ctrl ∨
      (w.ctrl.audioSourceNode = some sid ∧
        (fireCompletion w sid).ctrl.audioState = .stopped ∧
        (fireCompletion w sid).ctrl.pauseTime = 0 ∧
        (fireCompletion w sid).ctrl.audioSourceNode = none)) := by
  constructor
  · intro w sid hne
    unfold fireCompletion
    split
    · rfl
    next st hfind =>
      split
      · rfl
      next hact =>
        split
        next hguard => exact absurd hguard.2 hne
        next => rfl
  · intro w sid
    unfold fireCompletion
    split
    · exact Or.inl rfl
    next st hfind =>
      split
      · exact Or.inl rfl
      next hact =>
        split
        next hguard => exact Or.inr ⟨hguard.2, rfl, rfl, rfl⟩
        next => exact Or.inl rfl

/-- Witness for C6: the suppression part of `stale_completion_suppressed`
evaluated at `witnessWorldC1` (which tracks stream 0) firing a stale
completion for stream id 7. -/
theorem stale_completion_suppressed_witness :
    witnessWorldC1.ctrl.audioSourceNode ≠ some 7 ∧
    (fireCompletion witnessWorldC1 7).ctrl = witnessWorldC1.ctrl :=
  ⟨by decide, stale_completion_suppressed.1 witnessWorldC1 7 (by decide)⟩

/-- C7: a play request that attempts the lazy decode and fails aborts the
transition: the playback state, the tracked-stream reference, the stored
offset and start time are untouched, no output stream is started, and the
id counter does not move (the failure is only logged, the handler returns
normally instead of propagating the error).  The decode is attempted
exactly when no buffer is cached after the ensure-context step, so the
hypothesis requires an empty cache only when the context already exists;
on a first play the context is created in the same call (clearing the
cache) before the decode fails, and when it already existed the whole
world is unchanged. -/
theorem decode_failure_keeps_state (w : World) (e : String)
    (hpay : w.hasPayload = true)
    (hbuf : w.ctxExists = true → w.ctrl.audioBuffer = none) :
    (playAudio w (.error e)).ctrl.audioState = w.ctrl.audioState ∧
    (playAudio w (.error e)).ctrl.audioSourceNode = w.ctrl.audioSourceNode ∧
    (playAudio w (.error e)).ctrl.pauseTime = w.ctrl.pauseTime ∧
    (playAudio w (.error e)).ctrl.startTime = w.ctrl.startTime ∧
    (playAudio w (.error e)).streams = w.streams ∧
    (playAudio w (.error e)).nextId = w.nextId ∧
    (w.ctxExists = true → playAudio w (.error e) = w) := by
  by_cases hctx : w.ctxExists = true
  · have heq : playAudio w (.error e) = w := by
      unfold playAudio
      rw [if_neg (by simp [hpay]), if_pos hctx]
      show (match w.ctrl.audioBuffer with
        | some buf => startStream w buf
        | none =>
          match (Except.error e : Except String AudioBuffer) with
          | Except.error _ => w
          | Except.ok buf =>
              startStream
                { w with ctrl := { w.ctrl with audioBuffer := some buf } } buf)
        = w
      rw [hbuf hctx]
    rw [heq]
    exact ⟨rfl, rfl, rfl, rfl, rfl, rfl, fun _ => rfl⟩
  · have heq : playAudio w (.error e)
        = { w with ctxExists := true, ctrl := { w.ctrl with audioBuffer := none } } := by
      unfold playAudio
      rw [if_neg (by simp [hpay]), if_neg hctx]
    rw [heq]
    exact ⟨rfl, rfl, rfl, rfl, rfl, rfl, fun hcontra => absurd hcontra hctx⟩

/-- Concrete stopped world with an open context and no cached buffer used
by the C7 witness. -/
def witnessWorldC7 : World :=
  { ctrl := { audioState := .stopped, audioSourceNode := none,
              audioBuffer := none, pauseTime := 0, startTime := 0 }
    streams := [], nextId := 0, now := 0, hasPayload := true,
    ctxExists := true, sampleLoading := false, playbackRate := 1 }

/-- Concrete first-play world used by the C7 witness: no audio context yet,
so `playAudio` creates it in the same call before the decode fails. -/
def witnessWorldC7Cold : World :=
  { ctrl := { audioState := .stopped, audioSourceNode := none,
              audioBuffer := none, pauseTime := 0, startTime := 0 }
    streams := [], nextId := 0, now := 0, hasPayload := true,
    ctxExists := false, sampleLoading := false, playbackRate := 1 }

/-- Witness for C7: `decode_failure_keeps_state` at a warm world (context
open, cache empty) and at a cold first-play world (no context yet). -/
theorem decode_failure_keeps_state_witness :
    (witnessWorldC7.hasPayload = true ∧
      (witnessWorldC7.ctxExists = true → witnessWorldC7.ctrl.audioBuffer = none) ∧
      ((playAudio witnessWorldC7 (.error "decode failed")).ctrl.audioState
          = witnessWorldC7.ctrl.audioState ∧
        (playAudio witnessWorldC7 (.error "decode failed")).ctrl.audioSourceNode
          = witnessWorldC7.ctrl.audioSourceNode ∧
        (playAudio witnessWorldC7 (.error "decode failed")).ctrl.pauseTime
          = witnessWorldC7.ctrl.pauseTime ∧
        (playAudio witnessWorldC7 (.error "decode failed")).ctrl.startTime
          = witnessWorldC7.ctrl.startTime ∧
        (playAudio witnessWorldC7 (.error "decode failed")).streams
          = witnessWorldC7.streams ∧
        (playAudio witnessWorldC7 (.error "decode failed")).nextId
          = witnessWorldC7.nextId ∧
        (witnessWorldC7.ctxExists = true →
          playAudio witnessWorldC7 (.error "decode failed") = witnessWorldC7))) ∧
    (witnessWorldC7Cold.hasPayload = true ∧
      (witnessWorldC7Cold.ctxExists = true →
        witnessWorldC7Cold.ctrl.audioBuffer = none) ∧
      ((playAudio witnessWorldC7Cold (.error "decode failed")).ctrl.audioState
          = witnessWorldC7Cold.ctrl.audioState ∧
        (playAudio witnessWorldC7Cold (.error "decode failed")).ctrl.audioSourceNode
          = witnessWorldC7Cold.ctrl.audioSourceNode ∧
        (playAudio witnessWorldC7Cold (.error "decode failed")).ctrl.pauseTime
          = witnessWorldC7Cold.ctrl.pauseTime ∧
        (playAudio witnessWorldC7Cold (.error "decode failed")).ctrl.startTime
          = witnessWorldC7Cold.ctrl.startTime ∧
        (playAudio witnessWorldC7Cold (.error "decode failed")).streams
          = witnessWorldC7Cold.streams ∧
        (playAudio witnessWorldC7Cold (.error "decode failed")).nextId
          = witnessWorldC7Cold.nextId ∧
        (witnessWorldC7Cold.ctxExists = true →
          playAudio witnessWorldC7Cold (.error "decode failed")
            = witnessWorldC7Cold))) :=
  ⟨⟨rfl, fun _ => rfl,
    decode_failure_keeps_state witnessWorldC7 "decode failed" rfl (fun _ => rfl)⟩,
   ⟨rfl, by decide,
    decode_failure_keeps_state witnessWorldC7Cold "decode failed" rfl (by decide)⟩⟩

/-- C8: the arrival of a new encoded audio payload detaches the completion
callback of the tracked stream and stops it, clears the cached decoded
buffer (forcing re-decode of the new payload on next play), resets the
stored offset to 0 and sets the playback state to `stopped`; no new stream
is created, and when nothing was tracked the stream pool is untouched. -/
theorem new_payload_resets (w : World) :
    (newPayloadEffect w).ctrl.audioState = .stopped ∧
    (newPayloadEffect w).ctrl.audioBuffer = none ∧
    (newPayloadEffect w).ctrl.pauseTime = 0 ∧
    (newPayloadEffect w).ctrl.audioSourceNode = none ∧
    (newPayloadEffect w).nextId = w.nextId ∧
    (∀ sid, w.ctrl.audioSourceNode = some sid →
      ∀ st ∈ (newPayloadEffect w).streams, st.id = sid →
        st.active = false ∧ st.onendedAttached = false) ∧
    (w.ctrl.audioSourceNode = none → (newPayloadEffect w).streams = w.streams) := by
  refine ⟨rfl, rfl, rfl, rfl, rfl, ?_, ?_⟩
  · intro sid hsrc st hst hid
    have hstreams : (newPayloadEffect w).streams
        = w.streams.map fun st0 =>
            if st0.id = sid then { st0 with active := false, onendedAttached := false }
            else st0 := by
      unfold newPayloadEffect
      rw [hsrc]
    rw [hstreams] at hst
    simp only [List.mem_map] at hst
    obtain ⟨st0, hst0, rfl⟩ := hst
    by_cases h0 : st0.id = sid
    · rw [if_pos h0]
      exact ⟨rfl, rfl⟩
    · rw [if_neg h0] at hid
      exact absurd hid h0
  · intro hsrc
    unfold newPayloadEffect
    rw [hsrc]

/-- Witness for C8: `new_payload_resets` at `witnessWorldC1`, whose tracked
active stream 0 is stopped and detached by the payload arrival. -/
theorem new_payload_resets_witness :
    (newPayloadEffect witnessWorldC1).ctrl.audioState = .stopped ∧
    (newPayloadEffect witnessWorldC1).ctrl.audioBuffer = none ∧
    (newPayloadEffect witnessWorldC1).ctrl.pauseTime = 0 ∧
    (newPayloadEffect witnessWorldC1).ctrl.audioSourceNode = none ∧
    (newPayloadEffect witnessWorldC1).nextId = witnessWorldC1.nextId ∧
    (∀ sid, witnessWorldC1.ctrl.audioSourceNode = some sid →
      ∀ st ∈ (newPayloadEffect witnessWorldC1).streams, st.id = sid →
        st.active = false ∧ st.onendedAttached = false) ∧
    (witnessWorldC1.ctrl.audioSourceNode = none →
      (newPayloadEffect witnessWorldC1).streams = witnessWorldC1.streams) :=
  new_payload_resets witnessWorldC1

/-- C10: playing a sample voice clip never modifies the playback
controller's state: the whole `Controller` record (status, tracked source
node, cached voiceover buffer, stored offset and start time) is unchanged,
and every stream the request adds is sample-owned and is never the tracked
stream. -/
theorem sample_voice_frame (w : World) (dr : Except String AudioBuffer)
    (hinv : Inv w) :
    (handlePlaySampleVoice w dr).ctrl = w.ctrl ∧
    (handlePlaySampleVoice w dr).hasPayload = w.hasPayload ∧
    ∀ st ∈ (handlePlaySampleVoice w dr).streams, st ∉ w.streams →
      st.owner = .sample ∧
      (handlePlaySampleVoice w dr).ctrl.audioSourceNode ≠ some st.id := by
  have h5 := hinv.2.2.2.2.1
  unfold handlePlaySampleVoice
  split
  · exact ⟨rfl, rfl, fun st hst hnot => absurd hst hnot⟩
  next hl =>
    by_cases hctx : w.ctxExists = true
    · rw [if_pos hctx]
      cases dr with
      | error e => exact ⟨rfl, rfl, fun st hst hnot => absurd hst hnot⟩
      | ok buf =>
        refine ⟨rfl, rfl, ?_⟩
        intro st hst hnot
        have hst' : st ∈ w.streams ++
            [{ id := w.nextId, owner := .sample, active := true,
               onendedAttached := false, startOffset := 0,
               rate := w.playbackRate }] := hst
        simp only [List.mem_append, List.mem_singleton] at hst'
        rcases hst' with hmem | rfl
        · exact absurd hmem hnot
        · refine ⟨rfl, ?_⟩
          intro hsome
          have hsome' : w.ctrl.audioSourceNode = some w.nextId := hsome
          have hmem : w.nextId ∈ w.ctrl.audioSourceNode.toList := by
            rw [hsome']
            simp
          exact absurd (h5 w.nextId hmem) (Nat.lt_irrefl _)
    · rw [if_neg hctx]
      cases dr with
      | error e => exact ⟨rfl, rfl, fun st hst hnot => absurd hst hnot⟩
      | ok buf =>
        refine ⟨rfl, rfl, ?_⟩
        intro st hst hnot
        have hst' : st ∈ w.streams ++
            [{ id := w.nextId, owner := .sample, active := true,
               onendedAttached := false, startOffset := 0,
               rate := w.playbackRate }] := hst
        simp only [List.mem_append, List.mem_singleton] at hst'
        rcases hst' with hmem | rfl
        · exact absurd hmem hnot
        · refine ⟨rfl, ?_⟩
          intro hsome
          have hsome' : w.ctrl.audioSourceNode = some w.nextId := hsome
          have hmem : w.nextId ∈ w.ctrl.audioSourceNode.toList := by
            rw [hsome']
            simp
          exact absurd (h5 w.nextId hmem) (Nat.lt_irrefl _)

/-- Witness for C10: `sample_voice_frame` at `witnessWorldC1` with a
successfully decoded sample clip. -/
theorem sample_voice_frame_witness :
    Inv witnessWorldC1 ∧
    ((handlePlaySampleVoice witnessWorldC1
        (.ok witnessBufC5)).ctrl = witnessWorldC1.ctrl ∧
      (handlePlaySampleVoice witnessWorldC1
        (.ok witnessBufC5)).hasPayload = witnessWorldC1.hasPayload ∧
      ∀ st ∈ (handlePlaySampleVoice witnessWorldC1 (.ok witnessBufC5)).streams,
        st ∉ witnessWorldC1.streams →
        st.owner = .sample ∧
        (handlePlaySampleVoice witnessWorldC1
          (.ok witnessBufC5)).ctrl.audioSourceNode ≠ some st.id) :=
  ⟨by unfold Inv; decide,
   sample_voice_frame witnessWorldC1 (.ok witnessBufC5) (by unfold Inv; decide)⟩

/-! ### Generation request validation (`handleGenerate` in
src/unnamed/part_004, lines 478-529) -/

/-- Model of JavaScript `String.prototype.trim()`: strip leading and
trailing whitespace (structurally recursive, unlike `String.trim`, so that
concrete instances compute). -/
def jsTrim (s : String) : String :=
  String.mk (((s.data.dropWhile Char.isWhitespace).reverse.dropWhile
    Char.isWhitespace).reverse)

structure CharacterProfile where
  name : String
  appearance : String
  deriving DecidableEq, Repr

inductive StoryMode
  | detail
  | fromTitle
  | fromVoiceover
  deriving DecidableEq, Repr

inductive StoryLength
  | short
  | medium
  | long
  deriving DecidableEq, Repr

structure ScenePrompt where
  scene_number : Nat
  start_time_seconds : ℚ
  end_time_seconds : ℚ
  prompt : String
  deriving DecidableEq, Repr

structure GeneratedCharacter where
  name : String
  description : String
  deriving DecidableEq, Repr

/-- The `GeneratedResult` interface of src/types.ts. -/
structure GeneratedResult where
  characterSheet : String
  storyScript : Option String
  storyScriptRomanUrdu : Option String
  prompts : Option (List ScenePrompt)
  characters : Option (List GeneratedCharacter)
  voiceover : Option String
  voiceoverAudio : Option String
  thumbnail3d : Option String
  thumbnailRealistic : Option String
  titles : Option (List String)
  standaloneThumbnail : Option String
  thumbnail3dPrompt : Option String
  thumbnailRealisticPrompt : Option String
  standaloneThumbnailPrompt : Option String
  deriving DecidableEq, Repr

/-- The component state `handleGenerate` can touch, plus representative
state it must not touch (loading flags of the other handlers). -/
structure AppState where
  isLoading : Bool
  error : Option String
  generatedResult : Option GeneratedResult
  editableVoiceoverScript : String
  isVoiceoverLoading : Bool
  isEnhancingScript : Bool
  isAudioLoading : Bool
  isVoiceoverUrdu : Bool
  deriving DecidableEq, Repr

/-- The inputs `handleGenerate` closes over. -/
structure GenInputs where
  storyMode : StoryMode
  characterProfiles : List CharacterProfile
  storyScene : String
  storyTitle : String
  voiceoverScriptInput : String
  videoLengthMinutes : ℚ
  videoStyle : String
  storyLength : StoryLength
  deriving DecidableEq, Repr

/-- The argument record passed to `generateStoryAndPrompts`. -/
structure GenRequest where
  characters : List CharacterProfile
  numPrompts : ℤ
  mode : StoryMode
  sceneOrTitleOrVoiceover : String
  videoStyle : String
  storyLength : StoryLength
  deriving DecidableEq, Repr

/-- Outcome of running `handleGenerate` up to the external-service
boundary: either it returned during validation, or it reached the
`generateStoryAndPrompts` network call with the given request. -/
inductive GenOutcome
  | validationError (st : AppState)
  | networkCall (st : AppState) (request : GenRequest)
  deriving DecidableEq, Repr

def detailModeError : String :=
  "For \"Detailed Scene\" mode, please provide appearance details for at least one character and a story scene."

def fromTitleModeError : String :=
  "For \"From Title\" mode, please provide a story title."

def fromVoiceoverModeError : String :=
  "For \"From Voiceover\" mode, please provide a voiceover script."

/-- The request constructed in the `try` block of `handleGenerate`:
`numPrompts = Math.ceil(videoLengthMinutes * 60 / 8)`, characters filtered
to those with a non-blank appearance in `detail` mode, and the
mode-dependent scene/title/voiceover-script payload. -/
def genRequest (inp : GenInputs) : GenRequest :=
  { characters := if inp.storyMode = .detail
      then inp.characterProfiles.filter (fun c => jsTrim c.appearance != "")
      else []
    numPrompts := ⌈(inp.videoLengthMinutes * 60) / 8⌉
    mode := inp.storyMode
    sceneOrTitleOrVoiceover :=
      if inp.storyMode = .detail then inp.storyScene
      else if inp.storyMode = .fromTitle then inp.storyTitle
      else inp.voiceoverScriptInput
    videoStyle := inp.videoStyle
    storyLength := inp.storyLength }

/-- Embedding of `handleGenerate` (src/unnamed/part_004 lines 478-529) up
to the external-service boundary.  The handler first sets
`isLoading := true`, clears `error`, `generatedResult` and
`editableVoiceoverScript`, then runs the per-mode validation chain; a
missing required field sets the mode's message, resets `isLoading` and
returns before any network call.  Otherwise execution reaches
`await generateStoryAndPrompts(request)`, where the model stops. -/
def handleGenerate (st : AppState) (inp : GenInputs) : GenOutcome :=
  let st1 := { st with isLoading := true, error := none, generatedResult := none,
                       editableVoiceoverScript := "" }
  if inp.storyMode = .detail then
    if (!(inp.characterProfiles.any fun c => jsTrim c.appearance != ""))
        || jsTrim inp.storyScene == "" then
      .validationError { st1 with error := some detailModeError, isLoading := false }
    else .networkCall st1 (genRequest inp)
  else if inp.storyMode = .fromTitle then
    if jsTrim inp.storyTitle == "" then
      .validationError { st1 with error := some fromTitleModeError, isLoading := false }
    else .networkCall st1 (genRequest inp)
  else if inp.storyMode = .fromVoiceover then
    if jsTrim inp.voiceoverScriptInput == "" then
      .validationError { st1 with error := some fromVoiceoverModeError, isLoading := false }
    else .networkCall st1 (genRequest inp)
  else .networkCall st1 (genRequest inp)

/-- C9 amended: whenever the required input for the selected story mode is
missing (no character appearance or no scene in `detail` mode, no title in
`fromTitle` mode, no script in `fromVoiceover` mode), `handleGenerate` sets
the mode's validation error message and returns before issuing any network
call — but not with the state otherwise untouched: the handler has already
cleared `generatedResult` and `editableVoiceoverScript` and toggled
`isLoading` before validating, so a failed validation destroys prior
results; no other field is mutated. -/
theorem generate_validation_short_circuits (st : AppState) (inp : GenInputs)
    (hmiss :
      (inp.storyMode = .detail ∧
        ((inp.characterProfiles.any fun c => jsTrim c.appearance != "") = false ∨
          jsTrim inp.storyScene = "")) ∨
      (inp.storyMode = .fromTitle ∧ jsTrim inp.storyTitle = "") ∨
      (inp.storyMode = .fromVoiceover ∧ jsTrim inp.voiceoverScriptInput = "")) :
    ∃ msg, handleGenerate st inp = .validationError
      { st with
          isLoading := false
          error := some msg
          generatedResult := none
          editableVoiceoverScript := "" } := by
  unfold handleGenerate
  rcases hmiss with ⟨hm, hcond⟩ | ⟨hm, hcond⟩ | ⟨hm, hcond⟩
  · have hc : ((!(inp.characterProfiles.any fun c => jsTrim c.appearance != ""))
        || jsTrim inp.storyScene == "") = true := by
      rcases hcond with ha | hs
      · simp [ha]
      · simp [hs]
    rw [if_pos hm, if_pos hc]
    exact ⟨detailModeError, rfl⟩
  · rw [if_neg (by rw [hm]; exact fun hh => StoryMode.noConfusion hh),
      if_pos hm, if_pos (by simp [hcond])]
    exact ⟨fromTitleModeError, rfl⟩
  · rw [if_neg (by rw [hm]; exact fun hh => StoryMode.noConfusion hh),
      if_neg (by rw [hm]; exact fun hh => StoryMode.noConfusion hh),
      if_pos hm, if_pos (by simp [hcond])]
    exact ⟨fromVoiceoverModeError, rfl⟩

/-- Concrete app state used by the C9 witness. -/
def witnessStateC9 : AppState :=
  { isLoading := false, error := none, generatedResult := none,
    editableVoiceoverScript := "", isVoiceoverLoading := false,
    isEnhancingScript := false, isAudioLoading := false, isVoiceoverUrdu := false }

/-- Concrete inputs used by the C9 witness: detail mode with a blank
character appearance and an empty scene. -/
def witnessInputsC9 : GenInputs :=
  { storyMode := .detail
    characterProfiles := [{ name := "A", appearance := "  " }]
    storyScene := "", storyTitle := "", voiceoverScriptInput := ""
    videoLengthMinutes := 1, videoStyle := "3D Pixar style"
    storyLength := .medium }

/-- An arbitrary previously generated result used by the C9
counterexample. -/
def witnessResultC9 : GeneratedResult :=
  { characterSheet := "sheet", storyScript := some "script"
    storyScriptRomanUrdu := none, prompts := none, characters := none
    voiceover := none, voiceoverAudio := none, thumbnail3d := none
    thumbnailRealistic := none, titles := none, standaloneThumbnail := none
    thumbnail3dPrompt := none, thumbnailRealisticPrompt := none
    standaloneThumbnailPrompt := none }

/-- App state holding a previous generation result, used by the C9
counterexample. -/
def witnessStateC9Prev : AppState :=
  { isLoading := false, error := none
    generatedResult := some witnessResultC9
    editableVoiceoverScript := "old voiceover script"
    isVoiceoverLoading := false, isEnhancingScript := false
    isAudioLoading := false, isVoiceoverUrdu := false }

/-- C9 counterexample: at a state holding a previous generation result, a
generation request with a missing required field (detail mode, blank
appearance, empty scene) does return a validation error before any network
call, but it is not free of state mutation: the previous `generatedResult`
and `editableVoiceoverScript` are destroyed (cleared at part_004 lines
481-482, before validation runs). -/
theorem generate_validation_mutates :
    handleGenerate witnessStateC9Prev witnessInputsC9
      = .validationError { witnessStateC9Prev with
          isLoading := false
          error := some detailModeError
          generatedResult := none
          editableVoiceoverScript := "" } ∧
    witnessStateC9Prev.generatedResult ≠ none ∧
    witnessStateC9Prev.editableVoiceoverScript ≠ "" := by
  refine ⟨?_, by decide, by decide⟩
  rfl

/-- Witness for C9: `generate_validation_short_circuits` at concrete
inputs in `detail` mode with a missing scene. -/
theorem generate_validation_short_circuits_witness :
    (witnessInputsC9.storyMode = .detail ∧
      ((witnessInputsC9.characterProfiles.any
          fun c => jsTrim c.appearance != "") = false ∨
        jsTrim witnessInputsC9.storyScene = "")) ∧
    ∃ msg, handleGenerate witnessStateC9 witnessInputsC9 = .validationError
      { witnessStateC9 with
          isLoading := false
          error := some msg
          generatedResult := none
          editableVoiceoverScript := "" } :=
  ⟨⟨rfl, Or.inr (by decide)⟩,
   generate_validation_short_circuits witnessStateC9 witnessInputsC9
     (Or.inl ⟨rfl, Or.inr (by decide)⟩)⟩

end Pikaza
